import Mathlib

/-!
# MacroNerd backend proxy — verification of the retry/parse contract

Shallow embedding of `src/server.js` (the two POST handlers
`/api/get-macros` and `/api/analyze-image`): JavaScript values are
modelled by an inductive `JsValue` type (with an `undefined` constructor for
JavaScript's `undefined`, which property access can produce), JavaScript
numbers are modelled as integers (the handlers' prompts request integer
outputs and every numeric literal involved is an integer; floating point
is out of scope, so a fractional numeric literal is modelled as a parse
failure), `JSON.parse` is an executable recursive-descent parser,
`Number(...)` coercion and truthiness follow the JavaScript rules on this
fragment, and the retry loop is a fuel-indexed recursion over a scripted
transport `script : Nat → FetchOutcome` standing for the sequence of
`fetch` outcomes.  A thrown JavaScript exception is modelled by
`Except.error ()`.
-/

set_option maxRecDepth 100000

namespace MacroNerd

/-- JavaScript values as they occur in the handlers: the JSON values plus
`undefined` for `undefined` (produced by accessing a missing property).
Numbers are modelled as integers (see the file header). -/
inductive JsValue where
  | undefined
  | null
  | num (n : Int)
  | str (s : String)
  | bool (b : Bool)
  | arr (items : List JsValue)
  | obj (props : List (String × JsValue))
deriving Repr

/-- JavaScript truthiness (`if (x)`): `undefined`, `null`, `false`, `0`
and the empty string are falsy; arrays and objects are always truthy. -/
def truthy : JsValue → Bool
  | .null => false
  | .undefined => false
  | .bool b => b
  | .num n => n != 0
  | .str s => s != ""
  | .arr _ => true
  | .obj _ => true

/-- Property lookup on an object's field list (JavaScript objects have at
most one property per key, so first match is the property): the value, or
`undefined` for a missing field. -/
def objGet : List (String × JsValue) → String → JsValue
  | [], _ => .undefined
  | p :: ps, name => if p.1 = name then p.2 else objGet ps name

/-- Property read `v[name]`.  On `null` or `undefined` it throws a
`TypeError` (`Except.error ()`); on an object it yields the field value or
`undefined`; arrays and strings expose `length`; on other primitives it
yields `undefined`. -/
def getProp : JsValue → String → Except Unit JsValue
  | .null, _ => .error ()
  | .undefined, _ => .error ()
  | .obj fields, name => .ok (objGet fields name)
  | .arr elems, name => .ok (if name = "length" then .num elems.length else .undefined)
  | .str s, name => .ok (if name = "length" then .num s.length else .undefined)
  | _, _ => .ok .undefined

/-- Index read `v[i]` for a numeric index: throws on `null`/`undefined`,
yields the element (or `undefined`) on arrays, the one-character string on
strings, `undefined` on other primitives. -/
def jsIndex : JsValue → Nat → Except Unit JsValue
  | .null, _ => .error ()
  | .undefined, _ => .error ()
  | .arr elems, i => .ok ((elems.get? i).getD .undefined)
  | .str s, i => .ok (((s.data.get? i).map (fun c => .str (String.mk [c]))).getD .undefined)
  | _, _ => .ok .undefined

/-- Property assignment on an object's field list: update the existing
property in place, or append a new one. -/
def setFields : List (String × JsValue) → String → JsValue → List (String × JsValue)
  | [], name, v => [(name, v)]
  | p :: ps, name, v =>
      if p.1 = name then (name, v) :: ps else p :: setFields ps name v

/-- Property write `v[name] = x`.  On an object it updates the existing
field in place or appends a new one; on primitives the write is silently
ignored (non-strict mode; the handlers never reach a write on
`null`/`undefined` because the corresponding read throws first). -/
def setProp : JsValue → String → JsValue → JsValue
  | .obj fields, name, v => .obj (setFields fields name v)
  | j, _, _ => j

/-- Stringification of one array element inside
`Array.prototype.toString`: `null`/`undefined` elements become the empty
string, objects become `"[object Object]"`.  An array nested inside an
array is outside the modelled fragment (the handlers' data never nests
arrays in a stringified position). -/
def jsElemToString : JsValue → String
  | .null => ""
  | .undefined => ""
  | .bool true => "true"
  | .bool false => "false"
  | .num n => toString n
  | .str s => s
  | .arr _ => ""
  | .obj _ => "[object Object]"

/-- JavaScript string conversion `String(v)` on this fragment; objects
stringify to `"[object Object]"`, arrays to their comma-joined
elements. -/
def jsToString : JsValue → String
  | .null => "null"
  | .undefined => "undefined"
  | .bool true => "true"
  | .bool false => "false"
  | .num n => toString n
  | .str s => s
  | .arr elems => String.intercalate "," (elems.map jsElemToString)
  | .obj _ => "[object Object]"

/-- ASCII decimal digit test. -/
def isDigitChar (c : Char) : Bool := '0' ≤ c && c ≤ '9'

/-- Leading decimal digits of a character list and the remainder. -/
def takeDigits : List Char → (List Char × List Char)
  | [] => ([], [])
  | c :: cs =>
      if isDigitChar c then
        let (ds, rest) := takeDigits cs
        (c :: ds, rest)
      else ([], c :: cs)

/-- Numeric value of a digit list. -/
def digitsVal (ds : List Char) : Nat :=
  ds.foldl (fun acc c => 10 * acc + (c.toNat - '0'.toNat)) 0

/-- JavaScript whitespace (the characters relevant here). -/
def isWsChar (c : Char) : Bool := c = ' ' || c = '\n' || c = '\t' || c = '\r'

/-- Drop leading whitespace. -/
def skipWs : List Char → List Char
  | [] => []
  | c :: cs => if isWsChar c then skipWs cs else c :: cs

/-- String-to-number conversion used by `Number(...)`: optional sign,
then decimal digits consuming the whole (trimmed) string; the empty or
all-whitespace string converts to `0`; anything else is `NaN` (`none`).
Fractional, exponent and hex forms are out of the modelled fragment. -/
def strToNumber (s : String) : Option Int :=
  match skipWs s.data with
  | [] => some 0
  | '-' :: cs =>
      let (ds, rest) := takeDigits cs
      if ds ≠ [] ∧ skipWs rest = [] then some (-(digitsVal ds : Int)) else none
  | '+' :: cs =>
      let (ds, rest) := takeDigits cs
      if ds ≠ [] ∧ skipWs rest = [] then some (digitsVal ds : Int) else none
  | cs =>
      let (ds, rest) := takeDigits cs
      if ds ≠ [] ∧ skipWs rest = [] then some (digitsVal ds : Int) else none

/-- JavaScript `Number(v)`: `none` stands for `NaN`. -/
def jsToNumber : JsValue → Option Int
  | .null => some 0
  | .undefined => none
  | .bool b => some (if b then 1 else 0)
  | .num n => some n
  | .str s => strToNumber s
  | .arr elems => strToNumber (jsToString (.arr elems))
  | .obj _ => none

/-- The handler's numeric coercion `Number(v) || 0`: `NaN` becomes `0`
(and `0` stays `0`, so the falsy case coincides with the default). -/
def coerceNum (v : JsValue) : Int := (jsToNumber v).getD 0

/-- Object-literal construction: a duplicate key overwrites the earlier
value in place, as JavaScript property assignment does while `JSON.parse`
builds an object. -/
def objInsert (fields : List (String × JsValue)) (name : String) (v : JsValue) :
    List (String × JsValue) :=
  if fields.any (fun p => p.1 = name) then
    fields.map (fun p => if p.1 = name then (name, v) else p)
  else
    fields ++ [(name, v)]

/-- Simple escape sequences of JSON string literals (`\uXXXX` is outside
the modelled fragment). -/
def escChar (e : Char) : Option Char :=
  if e = 'n' then some '\n'
  else if e = 't' then some '\t'
  else if e = 'r' then some '\r'
  else if e = '"' then some '"'
  else if e = '\\' then some '\\'
  else if e = '/' then some '/'
  else if e = 'b' then some (Char.ofNat 8)
  else if e = 'f' then some (Char.ofNat 12)
  else none

/-- Body of a JSON string literal after the opening quote: the decoded
characters and the remainder after the closing quote. -/
def strChars : Nat → List Char → Option (List Char × List Char)
  | 0, _ => none
  | _ + 1, [] => none
  | _ + 1, '"' :: cs => some ([], cs)
  | fuel + 1, '\\' :: cs =>
      match cs with
      | [] => none
      | e :: cs' => do
          let c ← escChar e
          let (r, rest) ← strChars fuel cs'
          return (c :: r, rest)
  | fuel + 1, c :: cs => do
      let (r, rest) ← strChars fuel cs
      return (c :: r, rest)

/-- Match a literal character sequence. -/
def dropLit : List Char → List Char → Option (List Char)
  | [], cs => some cs
  | _ :: _, [] => none
  | p :: ps, c :: cs => if c = p then dropLit ps cs else none

mutual

/-- One JSON value (recursive descent, fuel-indexed): `null`, `true`,
`false`, integer numbers (an unconsumed fraction or exponent makes the
whole parse fail, the modelling of floating point being out of scope),
string literals, arrays and objects.  Returns the value and the unread
remainder. -/
def parseVal : Nat → List Char → Option (JsValue × List Char)
  | 0, _ => none
  | fuel + 1, cs =>
      match skipWs cs with
      | [] => none
      | 'n' :: cs' => do
          let rest ← dropLit ['u', 'l', 'l'] cs'
          return (.null, rest)
      | 't' :: cs' => do
          let rest ← dropLit ['r', 'u', 'e'] cs'
          return (.bool true, rest)
      | 'f' :: cs' => do
          let rest ← dropLit ['a', 'l', 's', 'e'] cs'
          return (.bool false, rest)
      | '"' :: cs' => do
          let (chars, rest) ← strChars (fuel + 1) cs'
          return (.str (String.mk chars), rest)
      | '-' :: cs' =>
          let (ds, rest) := takeDigits cs'
          if ds = [] then none else some (.num (-(digitsVal ds : Int)), rest)
      | '[' :: cs' =>
          (match skipWs cs' with
           | ']' :: rest => some (.arr [], rest)
           | cs'' => do
               let (elems, rest) ← parseElems fuel cs''
               return (.arr elems, rest))
      | '{' :: cs' =>
          (match skipWs cs' with
           | '}' :: rest => some (.obj [], rest)
           | cs'' => do
               let (fields, rest) ← parseMembers fuel [] cs''
               return (.obj fields, rest))
      | c :: cs' =>
          if isDigitChar c then
            let (ds, rest) := takeDigits (c :: cs')
            some (.num (digitsVal ds : Int), rest)
          else none

/-- Comma-separated array elements up to the closing bracket. -/
def parseElems : Nat → List Char → Option (List JsValue × List Char)
  | 0, _ => none
  | fuel + 1, cs => do
      let (v, rest) ← parseVal fuel cs
      match skipWs rest with
      | ',' :: rest' => do
          let (elems, rest'') ← parseElems fuel rest'
          return (v :: elems, rest'')
      | ']' :: rest' => some ([v], rest')
      | _ => none

/-- Comma-separated `"key": value` members up to the closing brace,
accumulated left to right with `objInsert` so a duplicate key keeps its
first position but the last value, as in JavaScript. -/
def parseMembers : Nat → List (String × JsValue) → List Char →
    Option (List (String × JsValue) × List Char)
  | 0, _, _ => none
  | fuel + 1, acc, cs =>
      match skipWs cs with
      | '"' :: cs' => do
          let (keyChars, afterKey) ← strChars (fuel + 1) cs'
          match skipWs afterKey with
          | ':' :: afterColon => do
              let (v, rest) ← parseVal fuel afterColon
              (match skipWs rest with
               | ',' :: rest' => parseMembers fuel (objInsert acc (String.mk keyChars) v) rest'
               | '}' :: rest' => some (objInsert acc (String.mk keyChars) v, rest')
               | _ => none)
          | _ => none
      | _ => none

end

/-- `JSON.parse(s)`: parse one value and require only trailing whitespace
after it; `none` models a thrown `SyntaxError`. -/
def parseJson (s : String) : Option JsValue := do
  let (v, rest) ← parseVal (s.length + 1) s.data
  if skipWs rest = [] then some v else none

/-- `{ error: msg }`, the handlers' JSON error body. -/
def errObj (msg : String) : JsValue := .obj [("error", .str msg)]

/-- An environment variable as a JavaScript value: `process.env.X` is a
string when set and `undefined` when not (so `if (!apiKey)` also fires on
an empty string). -/
def envVal : Option String → JsValue
  | none => .undefined
  | some s => .str s

/-- One HTTP response sent with `res.status(...).json(...)` (or
`res.json(...)`, status 200). -/
structure HttpResponse where
  status : Nat
  body : JsValue
deriving Repr

/-- Outcome of one `fetch` call: an HTTP response (status and raw body
text) or a thrown transport error (timeout, connection failure). -/
inductive FetchOutcome where
  | http (status : Nat) (body : String)
  | transportFail
deriving Repr

/-- JavaScript `x > 0`: numeric coercion, `NaN` compares false. -/
def gtZero (v : JsValue) : Bool :=
  match jsToNumber v with
  | some n => 0 < n
  | none => false

/-- The short-circuit envelope test of lines 169-171 / 283-285:
`result.candidates && result.candidates.length > 0 &&
result.candidates[0].content && result.candidates[0].content.parts &&
result.candidates[0].content.parts.length > 0`.
`Except.error ()` models a `TypeError` thrown mid-chain (for example
`candidates[0]` being `null`). -/
def envelopeCheck (result : JsValue) : Except Unit Bool := do
  let candidates ← getProp result "candidates"
  if truthy candidates = false then
    return false
  else
    let len ← getProp candidates "length"
    if gtZero len = false then
      return false
    else
      let c0 ← jsIndex candidates 0
      let content ← getProp c0 "content"
      if truthy content = false then
        return false
      else
        let parts ← getProp content "parts"
        if truthy parts = false then
          return false
        else
          let plen ← getProp parts "length"
          return gtZero plen

/-- `result.candidates[0].content.parts[0].text` (lines 173 / 287);
re-walks the same property chain the envelope test read. -/
def extractInnerText (result : JsValue) : Except Unit JsValue := do
  let candidates ← getProp result "candidates"
  let c0 ← jsIndex candidates 0
  let content ← getProp c0 "content"
  let parts ← getProp content "parts"
  let p0 ← jsIndex parts 0
  getProp p0 "text"

/-- Lines 177-180: `macros.calories = Number(macros.calories) || 0` and
likewise for `protein`, `carbs`, `fat`.  Each right-hand side reads the
property (throwing if `macros` is `null`/`undefined`) before the write. -/
def coerceMacros (macros : JsValue) : Except Unit JsValue := do
  let c ← getProp macros "calories"
  let m1 := setProp macros "calories" (.num (coerceNum c))
  let p ← getProp m1 "protein"
  let m2 := setProp m1 "protein" (.num (coerceNum p))
  let cb ← getProp m2 "carbs"
  let m3 := setProp m2 "carbs" (.num (coerceNum cb))
  let f ← getProp m3 "fat"
  return setProp m3 "fat" (.num (coerceNum f))

/-- Success-path body of `/api/get-macros` (lines 169-187), applied to
the parsed response envelope: envelope test, inner-text extraction,
`JSON.parse` of the inner text (whose failure THROWS into the retry
`catch`), numeric coercion, `res.json(macros)`; a failing envelope test
returns 500 immediately.  The success logging at line 182 reads
`macros.name` and `macros.calories` on the mutated object: it can never
throw, because the coercion's own reads (modelled) already threw if
`macros` was `null`/`undefined`, and property reads on other values do
not throw — so the log reads are a semantic no-op and are not modelled
separately. -/
def getMacrosProcess (result : JsValue) : Except Unit HttpResponse := do
  let ok ← envelopeCheck result
  if ok then
    let jsonText ← extractInnerText result
    match parseJson (jsToString jsonText) with
    | none => Except.error ()
    | some macros => do
        let coerced ← coerceMacros macros
        return ⟨200, coerced⟩
  else
    return ⟨500, errObj "AI returned an invalid response"⟩

/-- Success-path body of `/api/analyze-image` (lines 283-295): same
envelope test and inner parse, but `res.json(analysis)` returns the
parsed inner JSON without any coercion or validation.  The success
logging at line 290 reads `analysis.foodName` (a plain property read, no
optional chaining) before responding: when the parsed inner JSON is
`null` this throws a `TypeError` into the retry `catch`; for any other
parsed value the read yields a value (possibly `undefined`) that is only
logged, never checked. -/
def analyzeImageProcess (result : JsValue) : Except Unit HttpResponse := do
  let ok ← envelopeCheck result
  if ok then
    let jsonText ← extractInnerText result
    match parseJson (jsToString jsonText) with
    | none => Except.error ()
    | some analysis => do
        let _ ← getProp analysis "foodName"
        return ⟨200, analysis⟩
  else
    return ⟨500, errObj "AI returned an invalid response"⟩

/-- One iteration of the `try` block around `fetch` (lines 152-187 /
266-295), for a given fetch outcome: `response.ok` is status 200-299; a
non-ok status ≥ 500 or = 429 throws (retryable); any other non-ok status
returns `res.status(status).json({error: ...})` terminally; on ok,
`response.json()` parses the body text (throwing on invalid JSON) and
hands the envelope to `process`. -/
def attemptOnce (process : JsValue → Except Unit HttpResponse)
    (outcome : FetchOutcome) : Except Unit HttpResponse :=
  match outcome with
  | .transportFail => .error ()
  | .http status body =>
      if ¬ (200 ≤ status ∧ status ≤ 299) then
        if 500 ≤ status ∨ status = 429 then .error ()
        else .ok ⟨status, errObj ("API request failed: " ++ toString status)⟩
      else
        match parseJson body with
        | none => .error ()
        | some result => process result

/-- What one handler run produces: the single HTTP response sent, the
number of `fetch` calls issued, and the `setTimeout` sleeps performed (in
order, in milliseconds). -/
structure RunResult where
  response : HttpResponse
  calls : Nat
  sleeps : List Nat
deriving Repr

/-- The retry loop (lines 150-197 / 264-305): `for (i = 0; i <
maxRetries; i++)` with the catch block `if (i === maxRetries - 1) return
500(exhaustedMsg); await sleep(delay); delay *= 2`.  `remaining` is the
fuel `maxRetries - i`; `none` models the (unreachable for `maxRetries ≥
1`) fall-through where the loop ends without sending a response. -/
def retryLoop (process : JsValue → Except Unit HttpResponse)
    (exhaustedMsg : String) (script : Nat → FetchOutcome) (maxRetries : Nat) :
    Nat → Nat → Nat → Nat → List Nat → Option RunResult
  | _, 0, _, _, _ => none
  | i, remaining + 1, delay, calls, sleeps =>
      match attemptOnce process (script i) with
      | .ok resp => some ⟨resp, calls + 1, sleeps⟩
      | .error () =>
          if i = maxRetries - 1 then
            some ⟨⟨500, errObj exhaustedMsg⟩, calls + 1, sleeps⟩
          else
            retryLoop process exhaustedMsg script maxRetries
              (i + 1) remaining (delay * 2) (calls + 1) (sleeps ++ [delay])

/-- Line 95's request logging evaluates `query?.substring(0, 50)`.
Optional chaining short-circuits only on `null`/`undefined`; on a string
the call succeeds; on every OTHER value `query.substring` is looked up
(a JSON-shaped value can never hold a callable there, so even an object
with a `substring` property fails the call) and the call throws a
`TypeError`.  So the logging throws exactly when `query` is neither
nullish nor a string. -/
def queryLogThrows : JsValue → Bool
  | .undefined => false
  | .null => false
  | .str _ => false
  | _ => true

/-- The `/api/get-macros` handler (lines 91-203) over a request body, the
`GEMINI_API_KEY` environment value (`none` = unset) and a transport
script.  `const { query } = req.body` throws on a `null` body (caught by
the outer catch as 500 "Internal server error"); then line 95's logging
runs `query?.substring(0, 50)`, which throws a `TypeError` into the same
outer catch for a non-nullish non-string `query`; then a falsy `query` is
400; a falsy key is 500; otherwise the retry loop runs with `maxRetries =
5` and initial delay 1000. -/
def getMacrosHandler (reqBody : JsValue) (apiKey : Option String)
    (script : Nat → FetchOutcome) : Option RunResult :=
  match getProp reqBody "query" with
  | .error () => some ⟨⟨500, errObj "Internal server error"⟩, 0, []⟩
  | .ok query =>
      if queryLogThrows query then
        some ⟨⟨500, errObj "Internal server error"⟩, 0, []⟩
      else if truthy query = false then
        some ⟨⟨400, errObj "Query is required"⟩, 0, []⟩
      else if truthy (envVal apiKey) = false then
        some ⟨⟨500, errObj "API key not configured"⟩, 0, []⟩
      else
        retryLoop getMacrosProcess "Failed to get macro data from AI" script 5 0 5 1000 0 []

/-- The `/api/analyze-image` handler (lines 206-311): same shape with
`image` instead of `query`, 400 "Image is required", `maxRetries = 3` and
exhausted message "Failed to analyze image".  Line 210's logging
evaluates `image?.length || 0` — a property READ through optional
chaining, which never throws for any value (unlike line 95's `substring`
CALL) — so there is no logging-throw branch here. -/
def analyzeImageHandler (reqBody : JsValue) (apiKey : Option String)
    (script : Nat → FetchOutcome) : Option RunResult :=
  match getProp reqBody "image" with
  | .error () => some ⟨⟨500, errObj "Internal server error"⟩, 0, []⟩
  | .ok image =>
      if truthy image = false then
        some ⟨⟨400, errObj "Image is required"⟩, 0, []⟩
      else if truthy (envVal apiKey) = false then
        some ⟨⟨500, errObj "API key not configured"⟩, 0, []⟩
      else
        retryLoop analyzeImageProcess "Failed to analyze image" script 3 0 3 1000 0 []

/-! ## Concrete fixtures used by the theorems -/

/-- A well-formed upstream envelope whose single candidate's first part
carries the text `txt`. -/
def envelopeOf (txt : String) : JsValue :=
  .obj [("candidates", .arr [.obj [("content", .obj [("parts",
    .arr [.obj [("text", .str txt)]])])]])]

/-- The spec's running example result, as the upstream would encode it. -/
def goodMacros : JsValue :=
  .obj [("name", .str "2 eggs and rice"), ("calories", .num 300),
    ("protein", .num 12), ("carbs", .num 45), ("fat", .num 8)]

/-- The inner JSON text of the example result. -/
def goodInnerText : String := "\x7b\"name\":\"2 eggs and rice\",\"calories\":300,\"protein\":12,\"carbs\":45,\"fat\":8\x7d"

/-- A 200 body carrying the example result as inner JSON. -/
def goodBody : String := "\x7b\"candidates\":[\x7b\"content\":\x7b\"parts\":[\x7b\"text\":\"\x7b\\\"name\\\":\\\"2 eggs and rice\\\",\\\"calories\\\":300,\\\"protein\\\":12,\\\"carbs\\\":45,\\\"fat\\\":8\x7d\"\x7d]\x7d\x7d]\x7d"

/-- A 200 body with the expected envelope shape whose inner text is not
valid JSON. -/
def badInnerBody : String := "\x7b\"candidates\":[\x7b\"content\":\x7b\"parts\":[\x7b\"text\":\"not json\"\x7d]\x7d\x7d]\x7d"

/-- The inner JSON text with a negative `calories` value. -/
def negInnerText : String := "\x7b\"name\":\"x\",\"calories\":-5,\"protein\":1,\"carbs\":2,\"fat\":3\x7d"

/-- A 200 body whose inner JSON carries a negative `calories` value. -/
def negCaloriesBody : String := "\x7b\"candidates\":[\x7b\"content\":\x7b\"parts\":[\x7b\"text\":\"\x7b\\\"name\\\":\\\"x\\\",\\\"calories\\\":-5,\\\"protein\\\":1,\\\"carbs\\\":2,\\\"fat\\\":3\x7d\"\x7d]\x7d\x7d]\x7d"

/-- Sanity check: the good body parses to the envelope structure. -/
theorem goodBody_parses : parseJson goodBody = some (envelopeOf goodInnerText) := rfl

/-- Sanity check: the example inner text parses to the example result. -/
theorem goodInnerText_parses : parseJson goodInnerText = some goodMacros := rfl

/-- Sanity check: the bad-inner body parses to a well-shaped envelope
whose inner text is not valid JSON. -/
theorem badInnerBody_parses :
    parseJson badInnerBody = some (envelopeOf "not json") ∧
    parseJson "not json" = none := ⟨rfl, rfl⟩

/-- A request body with a non-empty `query`. -/
def reqQuery : JsValue := .obj [("query", .str "2 large eggs and 100g rice")]

/-- A request body with a non-empty `image`. -/
def reqImage : JsValue := .obj [("image", .str "aGVsbG8=")]

/-- The exponential backoff schedule: `n` sleeps starting at `delay`,
doubling each time. -/
def backoffs : Nat → Nat → List Nat
  | _, 0 => []
  | delay, n + 1 => delay :: backoffs (delay * 2) n

/-! ## Helper lemmas -/

theorem bindOk {α β : Type} (a : α) (f : α → Except Unit β) :
    (Except.ok a >>= f) = f a := rfl

theorem bindErr {α β : Type} (f : α → Except Unit β) :
    ((Except.error () : Except Unit α) >>= f) = .error () := rfl

theorem mapOk {α β : Type} (f : α → β) (a : α) :
    (f <$> (Except.ok a : Except Unit α)) = .ok (f a) := rfl

theorem pureOk {α : Type} (a : α) : (pure a : Except Unit α) = .ok a := rfl

theorem getProp_obj (fields : List (String × JsValue)) (name : String) :
    getProp (.obj fields) name = .ok (objGet fields name) := rfl

theorem objGet_setFields_same (fs : List (String × JsValue)) (k : String) (v : JsValue) :
    objGet (setFields fs k v) k = v := by
  induction fs with
  | nil => simp [setFields, objGet]
  | cons p ps ih =>
      by_cases h : p.1 = k
      · simp [setFields, h, objGet]
      · simp [setFields, h, objGet, ih]

theorem objGet_setFields_other (fs : List (String × JsValue)) (k k2 : String)
    (v : JsValue) (h : k ≠ k2) :
    objGet (setFields fs k v) k2 = objGet fs k2 := by
  induction fs with
  | nil => simp [setFields, objGet, h]
  | cons p ps ih =>
      by_cases hp : p.1 = k
      · simp [setFields, hp, objGet, h, hp ▸ h]
      · simp [setFields, hp, objGet, ih]

theorem attemptOnce_retryable (process : JsValue → Except Unit HttpResponse)
    (o : FetchOutcome)
    (h : o = .transportFail ∨
      ∃ s b, o = .http s b ∧ ¬ (200 ≤ s ∧ s ≤ 299) ∧ (500 ≤ s ∨ s = 429)) :
    attemptOnce process o = .error () := by
  rcases h with h | ⟨s, b, rfl, hok, hretry⟩
  · subst h; rfl
  · simp [attemptOnce, hok, hretry]

theorem retryLoop_succ (process : JsValue → Except Unit HttpResponse)
    (exhaustedMsg : String) (script : Nat → FetchOutcome) (maxRetries : Nat)
    (i r delay calls : Nat) (sleeps : List Nat) :
    retryLoop process exhaustedMsg script maxRetries i (r + 1) delay calls sleeps =
      (match attemptOnce process (script i) with
       | .ok resp => some ⟨resp, calls + 1, sleeps⟩
       | .error () =>
           if i = maxRetries - 1 then
             some ⟨⟨500, errObj exhaustedMsg⟩, calls + 1, sleeps⟩
           else
             retryLoop process exhaustedMsg script maxRetries
               (i + 1) r (delay * 2) (calls + 1) (sleeps ++ [delay])) := rfl

theorem retryLoop_allFail (process : JsValue → Except Unit HttpResponse)
    (exhaustedMsg : String) (script : Nat → FetchOutcome) (maxRetries : Nat)
    (hfail : ∀ j, attemptOnce process (script j) = .error ()) :
    ∀ remaining i delay calls sleeps, 1 ≤ remaining → i + remaining = maxRetries →
    retryLoop process exhaustedMsg script maxRetries i remaining delay calls sleeps =
      some ⟨⟨500, errObj exhaustedMsg⟩, calls + remaining,
        sleeps ++ backoffs delay (remaining - 1)⟩ := by
  intro remaining
  induction remaining with
  | zero => omega
  | succ r ih =>
      intro i delay calls sleeps _ htotal
      rw [retryLoop_succ]
      match r, ih with
      | 0, _ =>
          have hlast : i = maxRetries - 1 := by omega
          simp [hfail, hlast, backoffs]
      | r' + 1, ih =>
          have hnotlast : ¬ (i = maxRetries - 1) := by omega
          have step := ih (i + 1) (delay * 2) (calls + 1) (sleeps ++ [delay])
            (by omega) (by omega)
          simp only [hfail i, hnotlast, if_false]
          rw [step]
          simp only [backoffs, Option.some.injEq, RunResult.mk.injEq,
            List.append_assoc, List.singleton_append, Nat.add_sub_cancel]
          exact ⟨trivial, by omega, trivial⟩

theorem retryLoop_total (process : JsValue → Except Unit HttpResponse)
    (exhaustedMsg : String) (script : Nat → FetchOutcome) (maxRetries : Nat) :
    ∀ remaining i delay calls sleeps, 1 ≤ remaining → i + remaining = maxRetries →
    ∃ r, retryLoop process exhaustedMsg script maxRetries i remaining delay calls sleeps =
      some r ∧ r.calls ≤ calls + remaining := by
  intro remaining
  induction remaining with
  | zero => omega
  | succ r ih =>
      intro i delay calls sleeps _ htotal
      rw [retryLoop_succ]
      match hA : attemptOnce process (script i) with
      | .ok resp =>
          refine ⟨⟨resp, calls + 1, sleeps⟩, rfl, ?_⟩
          show calls + 1 ≤ calls + (r + 1)
          omega
      | .error () =>
          by_cases hlast : i = maxRetries - 1
          · refine ⟨⟨⟨500, errObj exhaustedMsg⟩, calls + 1, sleeps⟩,
              by simp [hlast], ?_⟩
            show calls + 1 ≤ calls + (r + 1)
            omega
          · have hr : 1 ≤ r := by omega
            obtain ⟨res, heq, hle⟩ := ih (i + 1) (delay * 2) (calls + 1)
              (sleeps ++ [delay]) hr (by omega)
            refine ⟨res, by simp [hlast, heq], by omega⟩

/-- The field list produced by `coerceMacros` on an object: the four
numeric fields overwritten with their coerced values (each read of a
later field is unaffected by the earlier writes, the four names being
distinct). -/
def coercedFields (fs : List (String × JsValue)) : List (String × JsValue) :=
  setFields (setFields (setFields (setFields fs
    "calories" (.num (coerceNum (objGet fs "calories"))))
    "protein" (.num (coerceNum (objGet fs "protein"))))
    "carbs" (.num (coerceNum (objGet fs "carbs"))))
    "fat" (.num (coerceNum (objGet fs "fat")))

theorem coerceMacros_obj (fs : List (String × JsValue)) :
    coerceMacros (.obj fs) = .ok (.obj (coercedFields fs)) := by
  simp only [coerceMacros, getProp_obj, bindOk, setProp, coercedFields,
    objGet_setFields_other _ "calories" "protein" _ (by decide),
    objGet_setFields_other _ "calories" "carbs" _ (by decide),
    objGet_setFields_other _ "protein" "carbs" _ (by decide),
    objGet_setFields_other _ "calories" "fat" _ (by decide),
    objGet_setFields_other _ "protein" "fat" _ (by decide),
    objGet_setFields_other _ "carbs" "fat" _ (by decide)]
  rfl

theorem getMacrosProcess_envelopeFail (result : JsValue)
    (h : envelopeCheck result = .ok false) :
    getMacrosProcess result = .ok ⟨500, errObj "AI returned an invalid response"⟩ := by
  simp [getMacrosProcess, h, bindOk, mapOk, pureOk]

theorem analyzeImageProcess_envelopeFail (result : JsValue)
    (h : envelopeCheck result = .ok false) :
    analyzeImageProcess result = .ok ⟨500, errObj "AI returned an invalid response"⟩ := by
  simp [analyzeImageProcess, h, bindOk, mapOk, pureOk]

theorem getMacrosProcess_success (result txt macros coerced : JsValue)
    (henv : envelopeCheck result = .ok true)
    (htxt : extractInnerText result = .ok txt)
    (hparse : parseJson (jsToString txt) = some macros)
    (hm : coerceMacros macros = .ok coerced) :
    getMacrosProcess result = .ok ⟨200, coerced⟩ := by
  simp [getMacrosProcess, henv, htxt, hparse, hm, bindOk, mapOk, pureOk]

theorem getMacrosProcess_innerFail (result txt : JsValue)
    (henv : envelopeCheck result = .ok true)
    (htxt : extractInnerText result = .ok txt)
    (hparse : parseJson (jsToString txt) = none) :
    getMacrosProcess result = .error () := by
  simp [getMacrosProcess, henv, htxt, hparse, bindOk, mapOk, pureOk]

theorem parseVal_not_undefined (fuel : Nat) (cs : List Char) (v : JsValue)
    (rest : List Char) (h : parseVal fuel cs = some (v, rest)) :
    v ≠ .undefined := by
  intro hv
  subst hv
  match fuel with
  | 0 => simp [parseVal] at h
  | f + 1 =>
      unfold parseVal at h
      split at h <;>
        simp_all [Option.bind_eq_some] <;>
        (try split at h) <;>
        simp_all [Option.bind_eq_some]

theorem parseJson_not_undefined (s : String) (v : JsValue)
    (h : parseJson s = some v) : v ≠ .undefined := by
  cases hp : parseVal (s.length + 1) s.data with
  | none => simp [parseJson, hp] at h
  | some pr =>
      obtain ⟨v', rest⟩ := pr
      have hne := parseVal_not_undefined _ _ _ _ hp
      by_cases hs : skipWs rest = []
      · simp [parseJson, hp, hs] at h
        exact h ▸ hne
      · simp [parseJson, hp, hs] at h

theorem analyzeImageProcess_success (result txt analysis : JsValue)
    (henv : envelopeCheck result = .ok true)
    (htxt : extractInnerText result = .ok txt)
    (hparse : parseJson (jsToString txt) = some analysis)
    (hnull : analysis ≠ .null) :
    analyzeImageProcess result = .ok ⟨200, analysis⟩ := by
  have hfn : ∃ fn, getProp analysis "foodName" = .ok fn := by
    have hnu := parseJson_not_undefined _ _ hparse
    cases analysis <;> simp_all [getProp]
  obtain ⟨fn, hfn⟩ := hfn
  simp [analyzeImageProcess, henv, htxt, hparse, hfn, bindOk, mapOk, pureOk]

theorem analyzeImageProcess_nullInner (result txt : JsValue)
    (henv : envelopeCheck result = .ok true)
    (htxt : extractInnerText result = .ok txt)
    (hparse : parseJson (jsToString txt) = some .null) :
    analyzeImageProcess result = .error () := by
  simp [analyzeImageProcess, henv, htxt, hparse, getProp, bindOk, bindErr, mapOk, pureOk]

theorem attemptOnce_terminal (process : JsValue → Except Unit HttpResponse)
    (s : Nat) (b : String)
    (hok : ¬ (200 ≤ s ∧ s ≤ 299)) (hr : ¬ (500 ≤ s ∨ s = 429)) :
    attemptOnce process (.http s b) =
      .ok ⟨s, errObj ("API request failed: " ++ toString s)⟩ := by
  simp [attemptOnce, hok, hr]

theorem attemptOnce_processed (process : JsValue → Except Unit HttpResponse)
    (s : Nat) (b : String) (result : JsValue)
    (hok : 200 ≤ s ∧ s ≤ 299) (hparse : parseJson b = some result) :
    attemptOnce process (.http s b) = process result := by
  simp [attemptOnce, hok, hparse]

theorem getMacrosHandler_run (script : Nat → FetchOutcome) :
    getMacrosHandler reqQuery (some "key") script =
      retryLoop getMacrosProcess "Failed to get macro data from AI" script 5 0 5 1000 0 [] := rfl

theorem analyzeImageHandler_run (script : Nat → FetchOutcome) :
    analyzeImageHandler reqImage (some "key") script =
      retryLoop analyzeImageProcess "Failed to analyze image" script 3 0 3 1000 0 [] := rfl

/-! ## Claim theorems -/

/-- Transport script: a 2xx response with the expected envelope shape but
invalid inner JSON on the first attempt, then a good response. -/
def badInnerThenGoodScript : Nat → FetchOutcome
  | 0 => .http 200 badInnerBody
  | _ => .http 200 goodBody

/-- Transport script: every attempt yields a 2xx response with the
expected envelope shape but invalid inner JSON. -/
def alwaysBadInnerScript : Nat → FetchOutcome := fun _ => .http 200 badInnerBody

/-- Transport script: 500 on the first four attempts, then a good 200. -/
def fourFailuresScript : Nat → FetchOutcome
  | 0 | 1 | 2 | 3 => .http 500 "Internal Server Error"
  | _ => .http 200 goodBody

/-- Transport script: 429 on every attempt. -/
def always429Script : Nat → FetchOutcome := fun _ => .http 429 "Too Many Requests"

/-- Transport script: 404 on every attempt, with a distinctive body. -/
def notFoundScript : Nat → FetchOutcome := fun _ => .http 404 "upstream body text"

/-- Transport script: every attempt yields 200 whose inner JSON has a
negative `calories` value. -/
def negCaloriesScript : Nat → FetchOutcome := fun _ => .http 200 negCaloriesBody

/-- C1 counterexample: with a 2xx well-shaped-envelope response whose
inner text is not valid JSON on the first attempt (and a good response on
the second), the get-macros handler does NOT return a 500 immediately
after one call: it makes 2 calls, sleeps 1000 ms in between, and ends up
returning the second attempt's 200 result. -/
theorem c1_inner_json_failure_retries_counterexample :
    getMacrosHandler reqQuery (some "key") badInnerThenGoodScript =
      some ⟨⟨200, goodMacros⟩, 2, [1000]⟩ := rfl

/-- C1 (amended): a 2xx upstream response with the expected envelope
shape but invalid inner text makes `JSON.parse` throw into the retry
`catch`, so it is treated exactly like a transient failure: the handler
sleeps and retries, and when every attempt yields such a response it
returns HTTP 500 with the retries-exhausted message after the full budget
(5 calls with sleeps 1000,2000,4000,8000 ms for get-macros; 3 calls with
sleeps 1000,2000 ms for analyze-image), never an immediate
malformed-response failure. -/
theorem c1_inner_json_failure_is_retryable (script : Nat → FetchOutcome)
    (h : ∀ j, script j = .http 200 badInnerBody) :
    getMacrosHandler reqQuery (some "key") script =
      some ⟨⟨500, errObj "Failed to get macro data from AI"⟩, 5, [1000, 2000, 4000, 8000]⟩ ∧
    analyzeImageHandler reqImage (some "key") script =
      some ⟨⟨500, errObj "Failed to analyze image"⟩, 3, [1000, 2000]⟩ := by
  have hg : ∀ j, attemptOnce getMacrosProcess (script j) = .error () := by
    intro j; rw [h j]; rfl
  have hi : ∀ j, attemptOnce analyzeImageProcess (script j) = .error () := by
    intro j; rw [h j]; rfl
  constructor
  · rw [getMacrosHandler_run,
      retryLoop_allFail _ _ _ _ hg 5 0 1000 0 [] (by omega) (by omega)]
    rfl
  · rw [analyzeImageHandler_run,
      retryLoop_allFail _ _ _ _ hi 3 0 1000 0 [] (by omega) (by omega)]
    rfl

/-- C1 witness: the amended claim at the constant bad-inner script. -/
theorem c1_inner_json_failure_is_retryable_witness :
    getMacrosHandler reqQuery (some "key") alwaysBadInnerScript =
      some ⟨⟨500, errObj "Failed to get macro data from AI"⟩, 5, [1000, 2000, 4000, 8000]⟩ ∧
    analyzeImageHandler reqImage (some "key") alwaysBadInnerScript =
      some ⟨⟨500, errObj "Failed to analyze image"⟩, 3, [1000, 2000]⟩ :=
  c1_inner_json_failure_is_retryable alwaysBadInnerScript (fun _ => rfl)

/-- C2 counterexample: an upstream value `calories = -5` is propagated
as-is to the 200 response, so the returned `calories` is a negative
number, contradicting `calories ≥ 0`. -/
theorem c2_negative_calories_counterexample :
    getMacrosHandler reqQuery (some "key") negCaloriesScript =
      some ⟨⟨200, .obj [("name", .str "x"), ("calories", .num (-5)),
        ("protein", .num 1), ("carbs", .num 2), ("fat", .num 3)]⟩, 1, []⟩ ∧
    (-5 : Int) < 0 := ⟨rfl, by decide⟩

theorem objGet_coerced_calories (fs : List (String × JsValue)) :
    objGet (coercedFields fs) "calories" = .num (coerceNum (objGet fs "calories")) := by
  unfold coercedFields
  rw [objGet_setFields_other _ "fat" "calories" _ (by decide),
    objGet_setFields_other _ "carbs" "calories" _ (by decide),
    objGet_setFields_other _ "protein" "calories" _ (by decide),
    objGet_setFields_same]

theorem objGet_coerced_protein (fs : List (String × JsValue)) :
    objGet (coercedFields fs) "protein" = .num (coerceNum (objGet fs "protein")) := by
  unfold coercedFields
  rw [objGet_setFields_other _ "fat" "protein" _ (by decide),
    objGet_setFields_other _ "carbs" "protein" _ (by decide),
    objGet_setFields_same]

theorem objGet_coerced_carbs (fs : List (String × JsValue)) :
    objGet (coercedFields fs) "carbs" = .num (coerceNum (objGet fs "carbs")) := by
  unfold coercedFields
  rw [objGet_setFields_other _ "fat" "carbs" _ (by decide),
    objGet_setFields_same]

theorem objGet_coerced_fat (fs : List (String × JsValue)) :
    objGet (coercedFields fs) "fat" = .num (coerceNum (objGet fs "fat")) := by
  unfold coercedFields
  rw [objGet_setFields_same]

/-- C2 (amended): on the success path each of the four numeric fields of
the returned object is always a number — a missing or non-numeric
upstream value is coerced to 0, and null/NaN is never propagated — but a
negative upstream number is propagated unchanged, so the fields are not
guaranteed to be ≥ 0. -/
theorem c2_numeric_fields_are_numbers (fs : List (String × JsValue)) (f : String)
    (hf : f = "calories" ∨ f = "protein" ∨ f = "carbs" ∨ f = "fat") :
    coerceMacros (.obj fs) = .ok (.obj (coercedFields fs)) ∧
    objGet (coercedFields fs) f = .num (coerceNum (objGet fs f)) ∧
    (jsToNumber (objGet fs f) = none → objGet (coercedFields fs) f = .num 0) := by
  refine ⟨coerceMacros_obj fs, ?_⟩
  have hfield : objGet (coercedFields fs) f = .num (coerceNum (objGet fs f)) := by
    rcases hf with rfl | rfl | rfl | rfl
    · exact objGet_coerced_calories fs
    · exact objGet_coerced_protein fs
    · exact objGet_coerced_carbs fs
    · exact objGet_coerced_fat fs
  refine ⟨hfield, fun hnan => ?_⟩
  rw [hfield]
  simp [coerceNum, hnan]

/-- C2 witness: a `calories` field holding the non-numeric string "abc"
is coerced to the number 0. -/
theorem c2_numeric_fields_are_numbers_witness :
    coerceMacros (.obj [("name", JsValue.str "rice"), ("calories", JsValue.str "abc")]) =
      .ok (.obj (coercedFields [("name", JsValue.str "rice"), ("calories", JsValue.str "abc")])) ∧
    objGet (coercedFields [("name", JsValue.str "rice"), ("calories", JsValue.str "abc")])
        "calories" =
      .num (coerceNum (objGet [("name", JsValue.str "rice"), ("calories", JsValue.str "abc")]
        "calories")) ∧
    (jsToNumber (objGet [("name", JsValue.str "rice"), ("calories", JsValue.str "abc")]
        "calories") = none →
      objGet (coercedFields [("name", JsValue.str "rice"), ("calories", JsValue.str "abc")])
          "calories" = .num 0) :=
  c2_numeric_fields_are_numbers _ "calories" (Or.inl rfl)

/-- C3 counterexample: on an upstream 404, the status is surfaced
verbatim and exactly one call is made, but the body sent to the caller is
the fixed message `{error: "API request failed: 404"}` — the upstream
response body ("upstream body text") is not in it, refuting "body
surfaced verbatim". -/
theorem c3_body_not_verbatim_counterexample :
    getMacrosHandler reqQuery (some "key") notFoundScript =
      some ⟨⟨404, errObj "API request failed: 404"⟩, 1, []⟩ ∧
    "API request failed: 404" ≠ "upstream body text" := ⟨rfl, by decide⟩

/-- C3 (amended): a non-2xx status other than 429 and below 500 is
terminal on both endpoints: the handler responds immediately after
exactly 1 call attempt with no sleeps, the upstream status code verbatim,
and the fixed body `{error: "API request failed: <status>"}` — the
upstream's own response body is only logged, not surfaced. -/
theorem c3_client_rejected_terminal (s : Nat) (b : String)
    (script : Nat → FetchOutcome) (h0 : script 0 = .http s b)
    (hok : ¬ (200 ≤ s ∧ s ≤ 299)) (hr : ¬ (500 ≤ s ∨ s = 429)) :
    getMacrosHandler reqQuery (some "key") script =
      some ⟨⟨s, errObj ("API request failed: " ++ toString s)⟩, 1, []⟩ ∧
    analyzeImageHandler reqImage (some "key") script =
      some ⟨⟨s, errObj ("API request failed: " ++ toString s)⟩, 1, []⟩ := by
  constructor
  · rw [getMacrosHandler_run, retryLoop_succ, h0,
      attemptOnce_terminal _ _ _ hok hr]
  · rw [analyzeImageHandler_run, retryLoop_succ, h0,
      attemptOnce_terminal _ _ _ hok hr]

/-- C3 witness: the amended claim at status 404. -/
theorem c3_client_rejected_terminal_witness :
    getMacrosHandler reqQuery (some "key") notFoundScript =
      some ⟨⟨404, errObj ("API request failed: " ++ toString 404)⟩, 1, []⟩ ∧
    analyzeImageHandler reqImage (some "key") notFoundScript =
      some ⟨⟨404, errObj ("API request failed: " ++ toString 404)⟩, 1, []⟩ :=
  c3_client_rejected_terminal 404 "upstream body text" notFoundScript rfl
    (by decide) (by decide)

/-- C4 (confirmed): with an upstream that fails with 500 on the first
four attempts and succeeds on the fifth, get-macros returns the success
result having made exactly 5 calls with sleeps exactly
1000,2000,4000,8000 ms between consecutive attempts. -/
theorem c4_backoff_schedule :
    getMacrosHandler reqQuery (some "key") fourFailuresScript =
      some ⟨⟨200, goodMacros⟩, 5, [1000, 2000, 4000, 8000]⟩ := rfl

/-- A fetch outcome the retry loop classifies as retryable by its status
alone: a transport failure, or an HTTP response with a non-ok status that
is ≥ 500 or = 429. -/
def retryableStatus (o : FetchOutcome) : Prop :=
  o = .transportFail ∨
    ∃ s b, o = .http s b ∧ ¬ (200 ≤ s ∧ s ≤ 299) ∧ (500 ≤ s ∨ s = 429)

/-- C5 (confirmed): when every attempt's outcome is retryable by status
(429, any ≥500, or a transport failure — all classified identically), the
handlers return the retries-exhausted 500 after exactly 5 calls
(get-macros) and exactly 3 calls (analyze-image). -/
theorem c5_retries_exhausted (script : Nat → FetchOutcome)
    (h : ∀ j, retryableStatus (script j)) :
    getMacrosHandler reqQuery (some "key") script =
      some ⟨⟨500, errObj "Failed to get macro data from AI"⟩, 5, [1000, 2000, 4000, 8000]⟩ ∧
    analyzeImageHandler reqImage (some "key") script =
      some ⟨⟨500, errObj "Failed to analyze image"⟩, 3, [1000, 2000]⟩ := by
  have hg : ∀ j, attemptOnce getMacrosProcess (script j) = .error () :=
    fun j => attemptOnce_retryable _ _ (h j)
  have hi : ∀ j, attemptOnce analyzeImageProcess (script j) = .error () :=
    fun j => attemptOnce_retryable _ _ (h j)
  constructor
  · rw [getMacrosHandler_run,
      retryLoop_allFail _ _ _ _ hg 5 0 1000 0 [] (by omega) (by omega)]
    rfl
  · rw [analyzeImageHandler_run,
      retryLoop_allFail _ _ _ _ hi 3 0 1000 0 [] (by omega) (by omega)]
    rfl

/-- C5 witness: the claim at the constant-429 script. -/
theorem c5_retries_exhausted_witness :
    getMacrosHandler reqQuery (some "key") always429Script =
      some ⟨⟨500, errObj "Failed to get macro data from AI"⟩, 5, [1000, 2000, 4000, 8000]⟩ ∧
    analyzeImageHandler reqImage (some "key") always429Script =
      some ⟨⟨500, errObj "Failed to analyze image"⟩, 3, [1000, 2000]⟩ :=
  c5_retries_exhausted always429Script
    (fun _ => Or.inr ⟨429, "Too Many Requests", rfl, by decide, by decide⟩)

/-- C6 counterexample: for the falsy query value `0`, the handler does
NOT respond 400 `{error: "Query is required"}`: line 95's
`query?.substring(0, 50)` throws a `TypeError` first (optional chaining
short-circuits only on nullish values), and the outer catch responds 500
`{error: "Internal server error"}` — still with zero fetch calls. -/
theorem c6_falsy_query_counterexample :
    getMacrosHandler (.obj [("query", .num 0)]) (some "key") always429Script =
      some ⟨⟨500, errObj "Internal server error"⟩, 0, []⟩ ∧
    "Internal server error" ≠ "Query is required" := ⟨rfl, by decide⟩

/-- C6 (amended): a request body whose `query` field is missing, `null`
or the empty string yields 400 `{error: "Query is required"}` with zero
fetch calls; but a falsy query that is neither nullish nor a string (`0`
or `false`) makes line 95's logging expression `query?.substring(0, 50)`
throw a `TypeError` before the validation check, so the handler responds
500 `{error: "Internal server error"}` instead — in every falsy case with
zero fetch calls. -/
theorem c6_missing_query_rejected (fs : List (String × JsValue))
    (key : Option String) (script : Nat → FetchOutcome) :
    (objGet fs "query" = .undefined ∨ objGet fs "query" = .null ∨
        objGet fs "query" = .str "" →
      getMacrosHandler (.obj fs) key script =
        some ⟨⟨400, errObj "Query is required"⟩, 0, []⟩) ∧
    (objGet fs "query" = .num 0 ∨ objGet fs "query" = .bool false →
      getMacrosHandler (.obj fs) key script =
        some ⟨⟨500, errObj "Internal server error"⟩, 0, []⟩) := by
  constructor
  · rintro (hq | hq | hq) <;>
      simp [getMacrosHandler, getProp_obj, hq, queryLogThrows, truthy]
  · rintro (hq | hq) <;>
      simp [getMacrosHandler, getProp_obj, hq, queryLogThrows]

/-- C6 witness: the amended claim at the empty request body (missing
query) and at the body carrying `query: 0`. -/
theorem c6_missing_query_rejected_witness :
    getMacrosHandler (.obj []) (some "key") always429Script =
      some ⟨⟨400, errObj "Query is required"⟩, 0, []⟩ ∧
    getMacrosHandler (.obj [("query", JsValue.num 0)]) (some "key") always429Script =
      some ⟨⟨500, errObj "Internal server error"⟩, 0, []⟩ :=
  ⟨(c6_missing_query_rejected [] (some "key") always429Script).1 (Or.inl rfl),
   (c6_missing_query_rejected [("query", JsValue.num 0)] (some "key")
      always429Script).2 (Or.inl rfl)⟩

/-- C7 (confirmed): when the `GEMINI_API_KEY` environment value is falsy
(unset, or the empty string), each endpoint — given a request body with a
truthy `query`/`image` — responds HTTP 500 with an error object and zero
fetch calls: analyze-image (and get-macros whenever the query is a
string, the only values a real client sends) answers
`{error: "API key not configured"}`; a truthy non-string query instead
throws at line 95's logging and yields 500
`{error: "Internal server error"}`, still before any network call.  (The
startup-side part of the claim holds by inspection: the environment check
at startup only logs and never exits.) -/
theorem c7_missing_api_key (fsq fsi : List (String × JsValue))
    (key : Option String) (script : Nat → FetchOutcome)
    (hq : truthy (objGet fsq "query") = true)
    (hi : truthy (objGet fsi "image") = true)
    (hk : truthy (envVal key) = false) :
    (∃ msg, getMacrosHandler (.obj fsq) key script =
      some ⟨⟨500, errObj msg⟩, 0, []⟩) ∧
    (∀ sq, objGet fsq "query" = .str sq →
      getMacrosHandler (.obj fsq) key script =
        some ⟨⟨500, errObj "API key not configured"⟩, 0, []⟩) ∧
    analyzeImageHandler (.obj fsi) key script =
      some ⟨⟨500, errObj "API key not configured"⟩, 0, []⟩ := by
  refine ⟨?_, ?_, ?_⟩
  · cases hql : queryLogThrows (objGet fsq "query") with
    | true =>
        exact ⟨"Internal server error", by simp [getMacrosHandler, getProp_obj, hql]⟩
    | false =>
        exact ⟨"API key not configured",
          by simp [getMacrosHandler, getProp_obj, hql, hq, hk]⟩
  · intro sq hsq
    rw [hsq] at hq
    simp [getMacrosHandler, getProp_obj, hsq, queryLogThrows, hq, hk]
  · simp [analyzeImageHandler, getProp_obj, hi, hk]

/-- C7 witness: the fixture request bodies with the key unset. -/
theorem c7_missing_api_key_witness :
    (∃ msg, getMacrosHandler (.obj [("query", JsValue.str "2 large eggs and 100g rice")])
      none always429Script = some ⟨⟨500, errObj msg⟩, 0, []⟩) ∧
    (∀ sq, objGet [("query", JsValue.str "2 large eggs and 100g rice")] "query" =
        .str sq →
      getMacrosHandler (.obj [("query", JsValue.str "2 large eggs and 100g rice")])
        none always429Script =
        some ⟨⟨500, errObj "API key not configured"⟩, 0, []⟩) ∧
    analyzeImageHandler (.obj [("image", JsValue.str "aGVsbG8=")])
        none always429Script =
      some ⟨⟨500, errObj "API key not configured"⟩, 0, []⟩ :=
  c7_missing_api_key _ _ none always429Script rfl rfl rfl

/-- A 200 body whose envelope has an empty `candidates` array. -/
def emptyCandidatesBody : String := "\x7b\"candidates\":[]\x7d"

/-- Transport script: every attempt yields 200 with an empty-candidates
envelope. -/
def emptyCandidatesScript : Nat → FetchOutcome :=
  fun _ => .http 200 emptyCandidatesBody

/-- C8 (confirmed): a 2xx response whose parsed envelope fails the
candidates/content/parts shape test makes both endpoints return 500
`{error: "AI returned an invalid response"}` immediately (one call, no
sleeps) rather than a success result. -/
theorem c8_malformed_envelope (s : Nat) (b : String) (result : JsValue)
    (script : Nat → FetchOutcome) (h0 : script 0 = .http s b)
    (hs : 200 ≤ s ∧ s ≤ 299) (hparse : parseJson b = some result)
    (henv : envelopeCheck result = .ok false) :
    getMacrosHandler reqQuery (some "key") script =
      some ⟨⟨500, errObj "AI returned an invalid response"⟩, 1, []⟩ ∧
    analyzeImageHandler reqImage (some "key") script =
      some ⟨⟨500, errObj "AI returned an invalid response"⟩, 1, []⟩ := by
  constructor
  · rw [getMacrosHandler_run, retryLoop_succ, h0,
      attemptOnce_processed _ _ _ _ hs hparse,
      getMacrosProcess_envelopeFail _ henv]
  · rw [analyzeImageHandler_run, retryLoop_succ, h0,
      attemptOnce_processed _ _ _ _ hs hparse,
      analyzeImageProcess_envelopeFail _ henv]

/-- C8 witness: the empty-candidates body. -/
theorem c8_malformed_envelope_witness :
    getMacrosHandler reqQuery (some "key") emptyCandidatesScript =
      some ⟨⟨500, errObj "AI returned an invalid response"⟩, 1, []⟩ ∧
    analyzeImageHandler reqImage (some "key") emptyCandidatesScript =
      some ⟨⟨500, errObj "AI returned an invalid response"⟩, 1, []⟩ :=
  c8_malformed_envelope 200 emptyCandidatesBody (.obj [("candidates", .arr [])])
    emptyCandidatesScript rfl (by decide) rfl rfl

/-- C9 (confirmed, implicit): for every request body, environment and
transport script, each handler terminates with exactly one HTTP response
(the model returns `some` run, never the loop fall-through `none`; the
line 95 / line 290 `TypeError`s and every other thrown exception land in
a catch that responds), and never makes more than 5 (get-macros) / 3
(analyze-image) fetch calls. -/
theorem c9_always_responds (body : JsValue) (key : Option String)
    (script : Nat → FetchOutcome) :
    (∃ r, getMacrosHandler body key script = some r ∧ r.calls ≤ 5) ∧
    (∃ r, analyzeImageHandler body key script = some r ∧ r.calls ≤ 3) := by
  constructor
  · cases hq : getProp body "query" with
    | error e =>
        cases e
        refine ⟨⟨⟨500, errObj "Internal server error"⟩, 0, []⟩, ?_, Nat.zero_le 5⟩
        unfold getMacrosHandler
        rw [hq]
    | ok q =>
        cases hql : queryLogThrows q with
        | true =>
            refine ⟨⟨⟨500, errObj "Internal server error"⟩, 0, []⟩, ?_, Nat.zero_le 5⟩
            unfold getMacrosHandler
            rw [hq]
            simp [hql]
        | false =>
            cases ht : truthy q with
            | false =>
                refine ⟨⟨⟨400, errObj "Query is required"⟩, 0, []⟩, ?_, Nat.zero_le 5⟩
                unfold getMacrosHandler
                rw [hq]
                simp [hql, ht]
            | true =>
                cases hk : truthy (envVal key) with
                | false =>
                    refine ⟨⟨⟨500, errObj "API key not configured"⟩, 0, []⟩, ?_,
                      Nat.zero_le 5⟩
                    unfold getMacrosHandler
                    rw [hq]
                    simp [hql, ht, hk]
                | true =>
                    obtain ⟨r, heq, hle⟩ := retryLoop_total getMacrosProcess
                      "Failed to get macro data from AI" script 5 5 0 1000 0 []
                      (by omega) (by omega)
                    refine ⟨r, ?_, by omega⟩
                    unfold getMacrosHandler
                    rw [hq]
                    simp [hql, ht, hk, heq]
  · cases hq : getProp body "image" with
    | error e =>
        cases e
        refine ⟨⟨⟨500, errObj "Internal server error"⟩, 0, []⟩, ?_, Nat.zero_le 3⟩
        unfold analyzeImageHandler
        rw [hq]
    | ok q =>
        cases ht : truthy q with
        | false =>
            refine ⟨⟨⟨400, errObj "Image is required"⟩, 0, []⟩, ?_, Nat.zero_le 3⟩
            unfold analyzeImageHandler
            rw [hq]
            simp [ht]
        | true =>
            cases hk : truthy (envVal key) with
            | false =>
                refine ⟨⟨⟨500, errObj "API key not configured"⟩, 0, []⟩, ?_,
                  Nat.zero_le 3⟩
                unfold analyzeImageHandler
                rw [hq]
                simp [ht, hk]
            | true =>
                obtain ⟨r, heq, hle⟩ := retryLoop_total analyzeImageProcess
                  "Failed to analyze image" script 3 3 0 1000 0 []
                  (by omega) (by omega)
                refine ⟨r, ?_, by omega⟩
                unfold analyzeImageHandler
                rw [hq]
                simp [ht, hk, heq]

/-- C9 witness: the bound at a concrete body, environment and script. -/
theorem c9_always_responds_witness :
    (∃ r, getMacrosHandler (.obj []) none always429Script = some r ∧ r.calls ≤ 5) ∧
    (∃ r, analyzeImageHandler (.obj []) none always429Script = some r ∧ r.calls ≤ 3) :=
  c9_always_responds (.obj []) none always429Script

/-- C10 (confirmed, implicit): on the success path neither endpoint
validates the non-numeric content of the parsed inner JSON: analyze-image
returns every non-null parsed inner value — in particular every parsed
object — verbatim, with no check on `foodName` or `suggestedQuantity`
(line 290 only READS `analysis.foodName` for logging, which throws a
`TypeError` into the retry catch when the parsed inner JSON is the
non-object `null`, and checks nothing otherwise); and get-macros returns
the parsed object with only the four numeric fields overwritten — in
particular the `name` field is passed through exactly as parsed (possibly
absent or non-string). -/
theorem c10_success_path_unvalidated (result txt analysis : JsValue)
    (fs : List (String × JsValue))
    (henv : envelopeCheck result = .ok true)
    (htxt : extractInnerText result = .ok txt)
    (hparse : parseJson (jsToString txt) = some analysis) :
    (analysis ≠ .null → analyzeImageProcess result = .ok ⟨200, analysis⟩) ∧
    (analysis = .null → analyzeImageProcess result = .error ()) ∧
    (analysis = .obj fs →
      getMacrosProcess result = .ok ⟨200, .obj (coercedFields fs)⟩ ∧
      objGet (coercedFields fs) "name" = objGet fs "name") := by
  refine ⟨fun hnull => analyzeImageProcess_success _ _ _ henv htxt hparse hnull,
    fun hnl => ?_, fun hobj => ?_⟩
  · subst hnl
    exact analyzeImageProcess_nullInner _ _ henv htxt hparse
  · subst hobj
    refine ⟨getMacrosProcess_success _ _ _ _ henv htxt hparse (coerceMacros_obj fs), ?_⟩
    unfold coercedFields
    rw [objGet_setFields_other _ "fat" "name" _ (by decide),
      objGet_setFields_other _ "carbs" "name" _ (by decide),
      objGet_setFields_other _ "protein" "name" _ (by decide),
      objGet_setFields_other _ "calories" "name" _ (by decide)]

/-- C10 witness: the good envelope fixture. -/
theorem c10_success_path_unvalidated_witness :
    (goodMacros ≠ .null →
      analyzeImageProcess (envelopeOf goodInnerText) = .ok ⟨200, goodMacros⟩) ∧
    (goodMacros = .null →
      analyzeImageProcess (envelopeOf goodInnerText) = .error ()) ∧
    (goodMacros = .obj [("name", JsValue.str "2 eggs and rice"),
        ("calories", JsValue.num 300), ("protein", JsValue.num 12),
        ("carbs", JsValue.num 45), ("fat", JsValue.num 8)] →
      getMacrosProcess (envelopeOf goodInnerText) =
        .ok ⟨200, .obj (coercedFields [("name", JsValue.str "2 eggs and rice"),
          ("calories", JsValue.num 300), ("protein", JsValue.num 12),
          ("carbs", JsValue.num 45), ("fat", JsValue.num 8)])⟩ ∧
      objGet (coercedFields [("name", JsValue.str "2 eggs and rice"),
          ("calories", JsValue.num 300), ("protein", JsValue.num 12),
          ("carbs", JsValue.num 45), ("fat", JsValue.num 8)]) "name" =
        objGet [("name", JsValue.str "2 eggs and rice"),
          ("calories", JsValue.num 300), ("protein", JsValue.num 12),
          ("carbs", JsValue.num 45), ("fat", JsValue.num 8)] "name") :=
  c10_success_path_unvalidated (envelopeOf goodInnerText)
    (.str goodInnerText) goodMacros _ rfl rfl rfl

end MacroNerd
